import Mathlib

/-!
Shallow embedding of the PHAROS loader (`parsers/PHAROS/src/loadPHAROS.py`)
from the ORION repository.  The three SQL-backed parse functions are modelled
as pure functions over lists of pre-fetched query-result records; the MySQL
fetch itself, logging side effects and file I/O stay outside the embedding
(query results become function arguments, logger calls become accumulated
`LogEntry` values).  Python's `random.random()` draws are modelled by an
explicit stream of nonce strings threaded through the parsers, so that the
dependence of the group keys on the random draws is visible in the model.
-/

set_option autoImplicit false

/-- One logger call: severity level and (the semantically relevant part of)
the message.  Python interpolates full row reprs into some messages; the
model keeps the fixed text plus the identifiers the message reports. -/
structure LogEntry where
  level : String
  msg : String
deriving DecidableEq

/-- Modelled from the spec: `kgxnode` comes from `Common.kgxmodel`, which is
not part of this repository's sources.  Per the spec's data model a Node is
an identifier plus a sanitized display name (category and equivalent
identifiers are never set by this loader's materializer, which calls
`kgxnode(id, name=name)`). -/
structure kgxnode where
  id : String
  name : String
deriving DecidableEq

/-- Edge properties dictionary built by the materializer:
`publications`, `affinity`, `affinity_parameter`. -/
structure EdgeProperties where
  publications : List String
  affinity : Rat
  affinity_parameter : Option String
deriving DecidableEq

/-- Modelled from the spec: `kgxedge` comes from `Common.kgxmodel`, which is
not part of this repository's sources.  Per the spec's data model an Edge
carries subject/object identifiers, predicate/relation, the edge-properties
dictionary, a primary knowledge source and the aggregator sources. -/
structure kgxedge where
  subject_id : String
  relation : String
  predicate : String
  object_id : String
  edgeprops : EdgeProperties
  primary_knowledge_source : Option String
  aggregator_knowledge_sources : List String
deriving DecidableEq

/-- One row of the flat `node_list` built by the parse functions (the
columns of the DataFrame assembled in `parse_data`).  Role-1 rows in the
source omit the edge-only keys (`predicate` .. `provenance`); they are never
read for role-1 rows by the materializer, and the model gives them inert
defaults at the role-1 construction sites. -/
structure FlatRow where
  grp : String
  node_num : Nat
  id : String
  name : Option String
  category : String
  equivalent_identifiers : String
  predicate : String
  relation : String
  edge_label : String
  pmids : List String
  affinity : Rat
  affinity_parameter : Option String
  provenance : Option String
deriving DecidableEq

/-- One result record of the `GENE_TO_DISEASE` query: columns
`value, did, name, sym, dtype`.  `did` and the display names are nullable in
the database; `value` is an HGNC xref and `dtype` is non-null (the query
filters on `d.dtype`). -/
structure DiseaseItem where
  value : String
  did : Option String
  name : Option String
  sym : Option String
  dtype : String
deriving DecidableEq

/-- One result record of the `GENE_TO_DRUG_ACTIVITY` / `GENE_TO_CMPD_ACTIVITY`
queries.  `pubmed_ids` is only selected by the compound query; the drug query
has no such column, which the source detects with a key-presence test, so an
absent column and a NULL value are both modelled as `none`.  The numeric
`act_value` is modelled as a rational (`float(...)` coercion is the
identity on it). -/
structure ActivityItem where
  value : String
  drug : Option String
  cid : String
  id_src : String
  sym : Option String
  affinity : Option Rat
  affinity_parameter : Option String
  pred : Option String
  pubmed_ids : Option String
  dtype : Option String
deriving DecidableEq

/-- The metadata dictionary returned by `parse_data`: exactly the keys
`num_source_lines` and `unusable_source_lines`. -/
structure LoadMetadata where
  num_source_lines : Nat
  unusable_source_lines : Nat
deriving DecidableEq

/-- The observable outcome of one `parse_data` run: the returned metadata
plus the `final_node_list` / `final_edge_list` accumulated on the loader
and the logger output. -/
structure RunResult where
  metadata : LoadMetadata
  nodes : List kgxnode
  edges : List kgxedge
  logs : List LogEntry
deriving DecidableEq

/-- Result of `parse_gene_to_disease`: the grown node list, the record and
skipped counters, logger output, and the unconsumed nonces. -/
structure G2DResult where
  node_list : List FlatRow
  records : Nat
  skipped : Nat
  logs : List LogEntry
  nonces : List String
deriving DecidableEq

/-- Result of the two activity parsers: the grown node list, counters and
the unconsumed nonces (these parsers never log). -/
structure ActResult where
  node_list : List FlatRow
  records : Nat
  skipped : Nat
  nonces : List String
deriving DecidableEq

/-! ### String helpers (ASCII-faithful models of the Python string methods) -/

/-- Does `p` occur as an initial segment of `l`? -/
def listStartsWith : List Char → List Char → Bool
  | [], _ => true
  | _ :: _, [] => false
  | p :: ps, c :: cs => p == c && listStartsWith ps cs

/-- Worker for `splitOnChar`: `acc` holds the current field reversed. -/
def splitOnCharCore (sep : Char) : List Char → List Char → List String
  | acc, [] => [String.mk acc.reverse]
  | acc, c :: cs =>
    if c == sep then String.mk acc.reverse :: splitOnCharCore sep [] cs
    else splitOnCharCore sep (c :: acc) cs

/-- Python `s.split(sep)` for a one-character separator: every occurrence
splits, empty fields are kept. -/
def splitOnChar (sep : Char) (s : String) : List String :=
  splitOnCharCore sep [] s.data

/-- Worker for `splitWs`. -/
def splitWsCore : List Char → List Char → List String
  | acc, [] => if acc.isEmpty then [] else [String.mk acc.reverse]
  | acc, c :: cs =>
    if c.isWhitespace then
      if acc.isEmpty then splitWsCore [] cs
      else String.mk acc.reverse :: splitWsCore [] cs
    else splitWsCore (c :: acc) cs

/-- Python `s.split()` (no argument): split on runs of whitespace and drop
empty fields. -/
def splitWs (s : String) : List String :=
  splitWsCore [] s.data

/-- Python `'_'.join(parts)`. -/
def joinUnderscore (parts : List String) : String :=
  String.intercalate "_" parts

/-- Python `s.lower()` restricted to ASCII letters (the predicate strings
this loader lower-cases are ASCII). -/
def asciiLower (s : String) : String :=
  String.mk (s.data.map (fun c => if 65 ≤ c.toNat && c.toNat ≤ 90 then Char.ofNat (c.toNat + 32) else c))

/-- The name scrub used at both `kgxnode` construction sites:
`''.join([x if ord(x) < 128 else chr(63) for x in name])`. -/
def sanitize_name (s : String) : String :=
  String.mk (s.data.map (fun c => if c.toNat < 128 then c else '?'))

/-- Python `s.replace('CHEMBL', '')`: remove every (left-to-right,
non-overlapping) occurrence of the substring. -/
def replaceCHEMBLCore : List Char → List Char
  | 'C' :: 'H' :: 'E' :: 'M' :: 'B' :: 'L' :: rest => replaceCHEMBLCore rest
  | c :: cs => c :: replaceCHEMBLCore cs
  | [] => []

/-- String wrapper for `replaceCHEMBLCore`. -/
def replace_chembl (s : String) : String :=
  String.mk (replaceCHEMBLCore s.data)

/-! ### Group keys and identifier normalization -/

/-- Modelled from the spec: `hashlib.md5(...).hexdigest()` is Python
standard-library code, not part of this repository.  The spec states the
exact hash algorithm is not semantically load-bearing, only its collision
resistance; the model therefore idealizes the digest as an injective
function of the input string (the identity). -/
def md5_hexdigest (s : String) : String := s

/-- The regex `re.compile('^C' ++ backslash-d ++ '+$')` used for UMLS local
identifiers: the letter `C` followed by one or more digits and nothing
else. -/
def umlsMatch (s : String) : Bool :=
  match s.data with
  | 'C' :: c :: cs => (c :: cs).all (fun ch => ch.isDigit)
  | _ => false

/-- Python `did.startswith('Orphanet:')`. -/
def hasOrphanetTag (s : String) : Bool :=
  listStartsWith ("Orphanet:".data) s.data

/-- The disease-identifier rewriting in `parse_gene_to_disease`: a UMLS
local id gains the `UMLS:` curie tag, `Orphanet:` ids are rewritten to
`ORPHANET:` plus the second colon-separated field, everything else passes
through unchanged. -/
def normalize_did (did : String) : String :=
  if umlsMatch did then "UMLS:" ++ did
  else if hasOrphanetTag did then "ORPHANET:" ++ (splitOnChar ':' did).getD 1 ""
  else did

/-- The `prefixmap` dictionary of the two activity parsers; a lookup of any
other source tag raises `KeyError` in Python, modelled as `none`. -/
def prefixmap (id_src : String) : Option String :=
  if id_src = "ChEMBL" then some "CHEMBL.COMPOUND:CHEMBL"
  else if id_src = "Guide to Pharmacology" then some "GTOPDB:"
  else none

/-! ### get_edge_props -/

/-- A value of the affinity-properties dict built by `get_edge_props`:
either the coerced affinity number or the (nullable) parameter label. -/
inductive PropVal where
  | num (q : Rat)
  | label (s : Option String)
deriving DecidableEq

/-- The quadruple returned by `get_edge_props`. -/
structure EdgePropsOut where
  relation : String
  pmids : List String
  props : List (String × PropVal)
  provenance : Option String
deriving DecidableEq

/-- `PHAROSLoader.snakify`: join the comma-split fields with underscores,
then the dash-split fields, then the whitespace-split fields. -/
def snakify (text : String) : String :=
  let decomma := joinUnderscore (splitOnChar ',' text)
  let dedash := joinUnderscore (splitOnChar '-' decomma)
  joinUnderscore (splitWs dedash)

/-- `PHAROSLoader.get_edge_props`: derive relation, pubmed ids, the
affinity-properties dict and provenance from one activity query record. -/
def get_edge_props (result : ActivityItem) : EdgePropsOut :=
  let rel : String :=
    match result.pred with
    | some p => if p.length > 1 then asciiLower (snakify p) else "interacts_with"
    | none => "interacts_with"
  let relation : String := "GAMMA:" ++ rel
  let provenance : Option String :=
    match result.dtype with
    | some d => if d.length > 0 then some d else none
    | none => none
  let pmids : List String :=
    match result.pubmed_ids with
    | some pm => (splitOnChar '|' pm).map (fun r => "PMID:" ++ r)
    | none => []
  let props : List (String × PropVal) :=
    match result.affinity with
    | some a => [("affinity", PropVal.num a), ("affinity_parameter", PropVal.label result.affinity_parameter)]
    | none => [("affinity", PropVal.num 0), ("affinity_parameter", PropVal.label (some ""))]
  ⟨relation, pmids, props, provenance⟩

/-- The affinity value read back out of the props dict
(`props['affinity']`). -/
def affLookupNum (props : List (String × PropVal)) : Rat :=
  match props.find? (fun kv => kv.fst == "affinity") with
  | some (_, PropVal.num q) => q
  | _ => 0

/-- The affinity-parameter value read back out of the props dict
(`props['affinity_parameter']`). -/
def affLookupLabel (props : List (String × PropVal)) : Option String :=
  match props.find? (fun kv => kv.fst == "affinity_parameter") with
  | some (_, PropVal.label s) => s
  | _ => none

/-- The `if len(props) == 2: ... else: affinity = 0; affinity_parameter =
None` branch shared by the drug- and compound-activity parsers. -/
def selectAffinity (props : List (String × PropVal)) : Rat × Option String :=
  if props.length = 2 then (affLookupNum props, affLookupLabel props)
  else (0, none)

/-! ### The three parse functions -/

/-- The role-1 (gene) row appended by `parse_gene_to_disease`; only the six
entity keys are set in the source dict, the edge-only fields get inert
defaults here. -/
def g2dGeneRow (grp gene : String) (gene_sym : Option String) : FlatRow :=
  ⟨grp, 1, gene, gene_sym, "", "", "", "", "", [], 0, none, none⟩

/-- The role-2 (disease) row appended by `parse_gene_to_disease`. -/
def g2dDiseaseRow (grp did : String) (name : Option String) (provenance : String) : FlatRow :=
  ⟨grp, 2, did, name, "", "", "biolink:gene_associated_with_condition", "WD:P2293",
   "gene_associated_with_condition", [], 0, some "", some provenance⟩

/-- `PHAROSLoader.parse_gene_to_disease` over pre-fetched query records.
Records without a disease id are skipped; the group key hashes
gene + relation + normalized disease id + one random draw; records whose
normalized disease id equals the gene id only produce an error log. -/
def parse_gene_to_disease : List DiseaseItem → List FlatRow → List String → G2DResult
  | [], node_list, nonces => ⟨node_list, 0, 0, [], nonces⟩
  | item :: rest, node_list, nonces =>
    match item.did with
    | none =>
      let out := parse_gene_to_disease rest node_list nonces
      ⟨out.node_list, out.records + 1, out.skipped + 1, out.logs, out.nonces⟩
    | some rawDid =>
      let did := normalize_did rawDid
      let grp := md5_hexdigest (item.value ++ "WD:P2293" ++ did ++ nonces.headD "")
      if did = item.value then
        let out := parse_gene_to_disease rest node_list nonces.tail
        ⟨out.node_list, out.records + 1, out.skipped,
         ⟨"error", "similar parse_gene_to_disease()! " ++ did ++ " == " ++ item.value⟩ :: out.logs,
         out.nonces⟩
      else
        let out := parse_gene_to_disease rest
          (node_list ++ [g2dGeneRow grp item.value item.sym, g2dDiseaseRow grp did item.name item.dtype])
          nonces.tail
        ⟨out.node_list, out.records + 1, out.skipped, out.logs, out.nonces⟩

/-- `PHAROSLoader.parse_gene_to_drug_activity` over pre-fetched query
records.  An `id_src` outside `prefixmap` raises `KeyError`
(`Except.error`); otherwise each record appends a role-1 drug row and a
role-2 gene row under a hashed group key that includes one random draw. -/
def parse_gene_to_drug_activity : List ActivityItem → List FlatRow → List String → Except String ActResult
  | [], node_list, nonces => .ok ⟨node_list, 0, 0, nonces⟩
  | item :: rest, node_list, nonces =>
    match prefixmap item.id_src with
    | none => .error ("KeyError: " ++ item.id_src)
    | some pre =>
      let drug_id := pre ++ replace_chembl item.cid
      let ep := get_edge_props item
      let aff := selectAffinity ep.props
      let grp := md5_hexdigest (drug_id ++ ep.relation ++ item.value ++ nonces.headD "")
      let row1 : FlatRow := ⟨grp, 1, drug_id, item.drug, "", "", "", "", "", [], 0, none, none⟩
      let row2 : FlatRow :=
        ⟨grp, 2, item.value, item.sym, "", "", "", ep.relation, "", ep.pmids, aff.1, aff.2, ep.provenance⟩
      match parse_gene_to_drug_activity rest (node_list ++ [row1, row2]) nonces.tail with
      | .error e => .error e
      | .ok out => .ok ⟨out.node_list, out.records + 1, out.skipped, out.nonces⟩

/-- `PHAROSLoader.parse_gene_to_cmpd_activity` over pre-fetched query
records.  Same shape as the drug-activity parser, but the gene is the
role-1 row and the compound the role-2 row. -/
def parse_gene_to_cmpd_activity : List ActivityItem → List FlatRow → List String → Except String ActResult
  | [], node_list, nonces => .ok ⟨node_list, 0, 0, nonces⟩
  | item :: rest, node_list, nonces =>
    match prefixmap item.id_src with
    | none => .error ("KeyError: " ++ item.id_src)
    | some pre =>
      let cmpd_id := pre ++ replace_chembl item.cid
      let ep := get_edge_props item
      let aff := selectAffinity ep.props
      let grp := md5_hexdigest (cmpd_id ++ ep.relation ++ item.value ++ nonces.headD "")
      let row1 : FlatRow := ⟨grp, 1, item.value, item.sym, "", "", "", "", "", [], 0, none, none⟩
      let row2 : FlatRow :=
        ⟨grp, 2, cmpd_id, item.drug, "", "", "", ep.relation, "", ep.pmids, aff.1, aff.2, ep.provenance⟩
      match parse_gene_to_cmpd_activity rest (node_list ++ [row1, row2]) nonces.tail with
      | .error e => .error e
      | .ok out => .ok ⟨out.node_list, out.records + 1, out.skipped, out.nonces⟩

/-! ### The materializer (`get_nodes_and_edges`) -/

/-- The edge built for one role-≥2 row once the subject id is known. -/
def kgxedgeOf (subjectId : String) (r : FlatRow) : kgxedge :=
  ⟨subjectId, r.relation, r.predicate, r.id,
   ⟨r.pmids, r.affinity, r.affinity_parameter⟩, r.provenance, ["infores:pharos"]⟩

/-- The second loop of a size-2 group: for every row with `node_num != 1`,
sanitize the name (Python raises `TypeError` when it is `None`), append the
object node and the edge. -/
def emitObjects (subjectId : String) : List FlatRow → Except String (List kgxnode × List kgxedge)
  | [] => .ok ([], [])
  | r :: rs =>
    match r.name with
    | none => .error "TypeError: NoneType is not iterable"
    | some nm =>
      match emitObjects subjectId rs with
      | .error e => .error e
      | .ok (ns, es) => .ok (⟨r.id, sanitize_name nm⟩ :: ns, kgxedgeOf subjectId r :: es)

/-- The debug log emitted for a group whose size is not 2 (the Python
message also interpolates the row data). -/
def mismatchLog (rows : List FlatRow) : LogEntry :=
  ⟨"debug", "node group mismatch. len: " ++ toString rows.length⟩

/-- Processing of one group in `get_nodes_and_edges`: groups of size ≠ 2
only log; otherwise the first row with `node_num == 1` and a present name
becomes the subject node, and if its id is nonempty every `node_num != 1`
row yields an object node and an edge. -/
def processGroup (rows : List FlatRow) : Except String (List kgxnode × List kgxedge × List LogEntry) :=
  if rows.length = 2 then
    match rows.find? (fun r => r.node_num == 1 && r.name.isSome) with
    | none => .ok ([], [], [])
    | some r1 =>
      if r1.id = "" then .ok ([⟨r1.id, sanitize_name (r1.name.getD "")⟩], [], [])
      else
        match emitObjects r1.id (rows.filter (fun r => !(r.node_num == 1))) with
        | .error e => .error e
        | .ok (ns, es) => .ok (⟨r1.id, sanitize_name (r1.name.getD "")⟩ :: ns, es, [])
  else .ok ([], [], [mismatchLog rows])

/-- Code-point-wise lexicographic strict comparison of character lists
(Python string `<`). -/
def charListLt : List Char → List Char → Bool
  | [], [] => false
  | [], _ :: _ => true
  | _ :: _, [] => false
  | a :: as, b :: bs =>
    if a.toNat < b.toNat then true
    else if b.toNat < a.toNat then false
    else charListLt as bs

/-- Lexicographic `≤` on strings as a boolean. -/
def strLeB (a b : String) : Bool := !(charListLt b.data a.data)

/-- Insert a key into an ascending list of keys. -/
def insertSorted (k : String) : List String → List String
  | [] => [k]
  | x :: xs => if strLeB k x then k :: x :: xs else x :: insertSorted k xs

/-- Insertion sort of the group keys (pandas `groupby` iterates groups in
sorted key order). -/
def sortStrings (l : List String) : List String :=
  l.foldr insertSorted []

/-- Collapse adjacent duplicates of a sorted key list. -/
def dedupAdjacent : List String → List String
  | [] => []
  | [x] => [x]
  | x :: y :: rest =>
    if x = y then dedupAdjacent (y :: rest) else x :: dedupAdjacent (y :: rest)

/-- The distinct group keys of a row list, in the sorted order pandas
iterates them. -/
def groupKeys (rows : List FlatRow) : List String :=
  dedupAdjacent (sortStrings (rows.map (fun r => r.grp)))

/-- Process the groups in order, concatenating the appended nodes, edges
and logs. -/
def materializeGroups : List (List FlatRow) → Except String (List kgxnode × List kgxedge × List LogEntry)
  | [] => .ok ([], [], [])
  | g :: gs =>
    match processGroup g with
    | .error e => .error e
    | .ok (ns, es, ls) =>
      match materializeGroups gs with
      | .error e => .error e
      | .ok (ns2, es2, ls2) => .ok (ns ++ ns2, es ++ es2, ls ++ ls2)

/-- `PHAROSLoader.get_nodes_and_edges`: partition the flat rows by group
key (each group keeps the original row order) and materialize every
group. -/
def get_nodes_and_edges (rows : List FlatRow) : Except String (List kgxnode × List kgxedge × List LogEntry) :=
  materializeGroups ((groupKeys rows).map (fun k => rows.filter (fun r => r.grp == k)))

/-- `PHAROSLoader.parse_data`: run the three parsers in order over their
query results, then materialize the accumulated rows (when any exist) and
return the metadata dictionary together with the accumulated node/edge
collections and logs. -/
def parse_data (g2d : List DiseaseItem) (gene_to_drug gene_to_cmpd : List ActivityItem)
    (nonces : List String) : Except String RunResult :=
  let r1 := parse_gene_to_disease g2d [] nonces
  match parse_gene_to_drug_activity gene_to_drug r1.node_list r1.nonces with
  | .error e => .error e
  | .ok r2 =>
    match parse_gene_to_cmpd_activity gene_to_cmpd r2.node_list r2.nonces with
    | .error e => .error e
    | .ok r3 =>
      let records := r1.records + r2.records + r3.records
      let skipped := r1.skipped + r2.skipped + r3.skipped
      if r3.node_list.length > 0 then
        match get_nodes_and_edges r3.node_list with
        | .error e => .error e
        | .ok (ns, es, ls) =>
          .ok ⟨⟨records, skipped⟩, ns, es,
               r1.logs ++ (⟨"debug", "Creating nodes and edges."⟩ :: ls) ++
               [⟨"debug", toString ns.length ++ " nodes found, " ++ toString es.length ++ " edges found."⟩]⟩
      else
        .ok ⟨⟨records, skipped⟩, [], [], r1.logs ++ [⟨"warning", "No records found."⟩]⟩

/-- `Except` result discriminator (Python: the call raised). -/
def exceptIsError {α : Type} (e : Except String α) : Bool :=
  match e with
  | .error _ => true
  | .ok _ => false

/-! ### Concrete inputs used in the claim theorems and witnesses -/

/-- A gene-to-disease record with an Orphanet disease id. -/
def orphanetItem : DiseaseItem :=
  ⟨"HGNC:1100", some "Orphanet:145", some "breast cancer 1", some "BRCA1", "CTD"⟩

/-- A compound-activity record with a known source tag and no optional
fields. -/
def cmpdItemA : ActivityItem :=
  ⟨"HGNC:1097", some "aspirin", "CHEMBL25", "ChEMBL", some "BRAF", none, none, none, none, some ""⟩

/-- An activity record whose raw predicate contains a comma followed by a
space. -/
def partOfItem : ActivityItem :=
  ⟨"HGNC:1", some "drugX", "123", "Guide to Pharmacology", some "SYM", none, none,
   some "Part Of, Regulates", none, some ""⟩

/-- An activity record with no raw predicate and no raw affinity. -/
def noPredItem : ActivityItem :=
  ⟨"HGNC:2", some "drugY", "456", "Guide to Pharmacology", some "SYM2", none, none, none, none, some ""⟩

/-- A drug-activity record whose source tag is outside `prefixmap`. -/
def badTagItem : ActivityItem :=
  ⟨"HGNC:9", some "drugZ", "X1", "DrugCentral", some "S", none, none, none, none, some ""⟩

/-- A gene-to-disease record whose disease id normalizes to its own gene
id. -/
def simItem : DiseaseItem := ⟨"HGNC:5", some "HGNC:5", some "nm", some "S", "CTD"⟩

/-- A lone role-1 row (a group of size 1). -/
def loneRow : FlatRow := ⟨"g0", 1, "HGNC:1", some "A", "", "", "", "", "", [], 0, none, none⟩

/-- A role-1 row whose display name is NULL. -/
def namelessSubjectRow : FlatRow := ⟨"g1", 1, "HGNC:2", none, "", "", "", "", "", [], 0, none, none⟩

/-- A well-formed role-2 row grouped with `namelessSubjectRow`. -/
def diseaseObjectRow : FlatRow :=
  ⟨"g1", 2, "UMLS:C009", some "Breast Cancer", "", "",
   "biolink:gene_associated_with_condition", "WD:P2293",
   "gene_associated_with_condition", [], 0, some "", some "CTD"⟩

/-- A well-formed role-1 row used in the positive materialization
scenarios. -/
def subjectRowW : FlatRow := ⟨"gw", 1, "HGNC:777", some "BRCA1", "", "", "", "", "", [], 0, none, none⟩

/-- A well-formed role-2 row grouped with `subjectRowW`. -/
def objectRowW : FlatRow :=
  ⟨"gw", 2, "UMLS:C009", some "Breast Cancer", "", "",
   "biolink:gene_associated_with_condition", "WD:P2293",
   "gene_associated_with_condition", [], 0, some "", some "CTD"⟩

/-- The nodes materialized from `[subjectRowW, objectRowW]`. -/
def nodesW : List kgxnode := [⟨"HGNC:777", "BRCA1"⟩, ⟨"UMLS:C009", "Breast Cancer"⟩]

/-- The edge materialized from `[subjectRowW, objectRowW]`. -/
def edgeW : kgxedge :=
  ⟨"HGNC:777", "WD:P2293", "biolink:gene_associated_with_condition", "UMLS:C009",
   ⟨[], 0, some ""⟩, some "CTD", ["infores:pharos"]⟩

/-! ### Helper lemmas -/

/-- Every edge emitted by the object loop carries the given subject id and
an object id whose node is emitted together with it. -/
theorem emitObjects_sound (sid : String) (rs : List FlatRow) (ns : List kgxnode) (es : List kgxedge)
    (h : emitObjects sid rs = .ok (ns, es)) :
    ∀ e ∈ es, e.subject_id = sid ∧ e.object_id ∈ ns.map kgxnode.id := by
  induction rs generalizing ns es with
  | nil =>
    simp only [emitObjects, Except.ok.injEq, Prod.mk.injEq] at h
    obtain ⟨h1, h2⟩ := h
    subst h1; subst h2
    simp
  | cons r rs ih =>
    unfold emitObjects at h
    cases hn : r.name with
    | none => rw [hn] at h; cases h
    | some nm =>
      rw [hn] at h
      cases hrec : emitObjects sid rs with
      | error e => rw [hrec] at h; cases h
      | ok p =>
        obtain ⟨ns0, es0⟩ := p
        rw [hrec] at h
        simp only [Except.ok.injEq, Prod.mk.injEq] at h
        obtain ⟨h1, h2⟩ := h
        subst h1; subst h2
        intro e he
        rcases List.mem_cons.mp he with he1 | he2
        · subst he1
          refine ⟨rfl, ?_⟩
          simp [kgxedgeOf]
        · obtain ⟨hs, ho⟩ := ih ns0 es0 hrec e he2
          exact ⟨hs, by simp [List.mem_cons]; right; simpa using ho⟩

/-- Every edge emitted for one group references nodes emitted for the same
group. -/
theorem processGroup_sound (g : List FlatRow) (ns : List kgxnode) (es : List kgxedge)
    (ls : List LogEntry) (h : processGroup g = .ok (ns, es, ls)) :
    ∀ e ∈ es, e.subject_id ∈ ns.map kgxnode.id ∧ e.object_id ∈ ns.map kgxnode.id := by
  unfold processGroup at h
  split at h
  · split at h
    · simp only [Except.ok.injEq, Prod.mk.injEq] at h
      obtain ⟨-, h2, -⟩ := h
      subst h2
      simp
    · next r1 hf =>
      split at h
      · simp only [Except.ok.injEq, Prod.mk.injEq] at h
        obtain ⟨-, h2, -⟩ := h
        subst h2
        simp
      · split at h
        · cases h
        · next ns0 es0 he =>
          simp only [Except.ok.injEq, Prod.mk.injEq] at h
          obtain ⟨h1, h2, -⟩ := h
          subst h1; subst h2
          intro e hme
          obtain ⟨hs, ho⟩ := emitObjects_sound r1.id _ ns0 es0 he e hme
          constructor
          · rw [hs]; simp
          · simp only [List.map_cons, List.mem_cons]
            right
            exact ho
  · simp only [Except.ok.injEq, Prod.mk.injEq] at h
    obtain ⟨-, h2, -⟩ := h
    subst h2
    simp

/-- Every edge emitted over a list of groups references nodes in the
concatenated node output. -/
theorem materializeGroups_sound (gs : List (List FlatRow)) (ns : List kgxnode)
    (es : List kgxedge) (ls : List LogEntry) (h : materializeGroups gs = .ok (ns, es, ls)) :
    ∀ e ∈ es, e.subject_id ∈ ns.map kgxnode.id ∧ e.object_id ∈ ns.map kgxnode.id := by
  induction gs generalizing ns es ls with
  | nil =>
    simp only [materializeGroups, Except.ok.injEq, Prod.mk.injEq] at h
    obtain ⟨-, h2, -⟩ := h
    subst h2
    simp
  | cons g gs ih =>
    unfold materializeGroups at h
    cases hg : processGroup g with
    | error e => rw [hg] at h; cases h
    | ok p =>
      obtain ⟨ns1, es1, ls1⟩ := p
      rw [hg] at h
      cases hrec : materializeGroups gs with
      | error e => rw [hrec] at h; cases h
      | ok q =>
        obtain ⟨ns2, es2, ls2⟩ := q
        rw [hrec] at h
        simp only [Except.ok.injEq, Prod.mk.injEq] at h
        obtain ⟨h1, h2, -⟩ := h
        subst h1; subst h2
        intro e he
        rcases List.mem_append.mp he with he1 | he2
        · obtain ⟨hs, ho⟩ := processGroup_sound g ns1 es1 ls1 hg e he1
          exact ⟨by simp [List.mem_append]; left; simpa using hs,
                 by simp [List.mem_append]; left; simpa using ho⟩
        · obtain ⟨hs, ho⟩ := ih ns2 es2 ls2 hrec e he2
          exact ⟨by simp [List.mem_append]; right; simpa using hs,
                 by simp [List.mem_append]; right; simpa using ho⟩

/-! ### Claims -/

/-- C1: the claim says the group key of a record is a pure, deterministic
function of its business fields alone, so that independent runs agree.  In
the code the key input ends with a fresh `random.random()` draw: two runs
of `parse_gene_to_disease` over the same single record, differing only in
the random draw, assign different group keys to the record's rows. -/
theorem c1_group_key_depends_on_random_nonce :
    (parse_gene_to_disease [orphanetItem] [] ["0.1"]).node_list.map (fun r => r.grp) ≠
    (parse_gene_to_disease [orphanetItem] [] ["0.2"]).node_list.map (fun r => r.grp) := by
  decide

/-- C2 counterexample: a run with one malformed (size-4) group returns the
same metadata as a run of the same records whose groups are all
well-formed, so no reported count reflects the group-cardinality mismatch;
the malformed run emits no edges while the well-formed one emits two. -/
theorem c2_counterexample :
    (parse_data [] [] [cmpdItemA, cmpdItemA] ["n", "n"]).map (fun r => r.metadata) =
      (parse_data [] [] [cmpdItemA, cmpdItemA] ["n1", "n2"]).map (fun r => r.metadata) ∧
    (parse_data [] [] [cmpdItemA, cmpdItemA] ["n", "n"]).map (fun r => r.edges) = .ok [] ∧
    (parse_data [] [] [cmpdItemA, cmpdItemA] ["n1", "n2"]).map (fun r => r.edges.length) = .ok 2 :=
  ⟨rfl, rfl, rfl⟩

/-- C2 amended: a group whose size is not 2 contributes no node and no
edge and only a debug-level log entry; the code maintains no
malformed-group counter (the returned metadata carries only
`num_source_lines` and `unusable_source_lines`). -/
theorem c2_malformed_group_emits_nothing (rows : List FlatRow) (h : rows.length ≠ 2) :
    processGroup rows = .ok ([], [], [mismatchLog rows]) := by
  unfold processGroup
  rw [if_neg h]

/-- C2 witness: a concrete size-1 group is skipped with only a debug
log. -/
theorem c2_malformed_group_emits_nothing_witness :
    ([loneRow] : List FlatRow).length ≠ 2 ∧
      processGroup [loneRow] = .ok ([], [], [mismatchLog [loneRow]]) :=
  ⟨by decide, c2_malformed_group_emits_nothing [loneRow] (by decide)⟩

/-- C3 counterexample: a group of exactly one role-1 row and one role-2 row
where the role-1 name is NULL materializes zero nodes and zero edges, not
two nodes and one edge. -/
theorem c3_counterexample :
    (processGroup [namelessSubjectRow, diseaseObjectRow]).map (fun o => (o.1.length, o.2.1.length)) =
      .ok (0, 0) ∧ ((0, 0) : Nat × Nat) ≠ (2, 1) :=
  ⟨rfl, by decide⟩

/-- C3 amended: a group of exactly one role-1 row and one role-≥2 row, in
either order, materializes exactly two nodes and one edge whose subject id
is the role-1 row's id and whose object id is the role-≥2 row's id —
provided the role-1 row's name is present, its id is nonempty, and the
role-≥2 row's name is present. -/
theorem c3_wellformed_pair_emits (a b : FlatRow) (rows : List FlatRow) (na nb : String)
    (horder : rows = [a, b] ∨ rows = [b, a]) (ha1 : a.node_num = 1) (hb : b.node_num ≠ 1)
    (hna : a.name = some na) (hnb : b.name = some nb) (hid : a.id ≠ "") :
    processGroup rows =
      .ok ([⟨a.id, sanitize_name na⟩, ⟨b.id, sanitize_name nb⟩], [kgxedgeOf a.id b], []) := by
  have hb' : (b.node_num == 1) = false := by simpa using hb
  have ha' : (a.node_num == 1) = true := by simpa using ha1
  have hlen : rows.length = 2 := by rcases horder with h | h <;> subst h <;> rfl
  have hfind : rows.find? (fun r => r.node_num == 1 && r.name.isSome) = some a := by
    rcases horder with h | h <;> subst h <;> simp [List.find?, ha', hb', hna]
  have hfilt : rows.filter (fun r => !(r.node_num == 1)) = [b] := by
    rcases horder with h | h <;> subst h <;> simp [List.filter, ha', hb']
  unfold processGroup
  rw [if_pos hlen]
  split
  · next hnone => rw [hfind] at hnone; cases hnone
  · next r1 hsome =>
    rw [hfind] at hsome
    injection hsome with hr1
    subst hr1
    rw [if_neg hid, hfilt]
    split
    · next e he => simp [emitObjects, hnb] at he
    · next ns0 es0 he =>
      simp only [emitObjects, hnb, Except.ok.injEq, Prod.mk.injEq] at he
      obtain ⟨h1, h2⟩ := he
      rw [← h1, ← h2, hna]
      rfl

/-- C3 witness: the concrete well-formed pair materializes the two nodes
and the connecting edge. -/
theorem c3_wellformed_pair_emits_witness :
    processGroup [subjectRowW, objectRowW] =
      .ok ([⟨"HGNC:777", sanitize_name "BRCA1"⟩, ⟨"UMLS:C009", sanitize_name "Breast Cancer"⟩],
           [kgxedgeOf "HGNC:777" objectRowW], []) :=
  c3_wellformed_pair_emits subjectRowW objectRowW [subjectRowW, objectRowW] "BRCA1" "Breast Cancer"
    (Or.inl rfl) rfl (by decide) rfl rfl (by decide)

/-- C4: every edge produced by a materialization pass references a subject
node and an object node present in the final node collection. -/
theorem c4_edges_reference_emitted_nodes (rows : List FlatRow) (ns : List kgxnode)
    (es : List kgxedge) (ls : List LogEntry) (h : get_nodes_and_edges rows = .ok (ns, es, ls)) :
    ∀ e ∈ es, e.subject_id ∈ ns.map kgxnode.id ∧ e.object_id ∈ ns.map kgxnode.id :=
  materializeGroups_sound _ ns es ls h

/-- C4 witness: in the concrete two-row run the emitted edge's subject and
object ids are both among the emitted node ids. -/
theorem c4_edges_reference_emitted_nodes_witness :
    edgeW.subject_id ∈ nodesW.map kgxnode.id ∧ edgeW.object_id ∈ nodesW.map kgxnode.id :=
  c4_edges_reference_emitted_nodes [subjectRowW, objectRowW] nodesW [edgeW] [] rfl edgeW
    (by decide)

/-- C5: identifier normalization rewrites `C1234` to `UMLS:C1234` and
`Orphanet:1234` to `ORPHANET:1234`, and passes every identifier matching
neither rule through unchanged (no identifier is rejected: the function is
total). -/
theorem c5_identifier_normalization :
    normalize_did "C1234" = "UMLS:C1234" ∧
    normalize_did "Orphanet:1234" = "ORPHANET:1234" ∧
    ∀ s : String, umlsMatch s = false → hasOrphanetTag s = false → normalize_did s = s :=
  ⟨by decide, by decide, fun s h1 h2 => by unfold normalize_did; rw [h1, h2]; simp⟩

/-- C5 witness: `HGNC:5` matches no rule and passes through unchanged. -/
theorem c5_identifier_normalization_witness :
    umlsMatch "HGNC:5" = false ∧ normalize_did "HGNC:5" = "HGNC:5" :=
  ⟨by decide, c5_identifier_normalization.2.2 "HGNC:5" (by decide) (by decide)⟩

/-- C6 counterexample: the raw predicate `Part Of, Regulates` resolves to
relation `GAMMA:part_of__regulates` — the comma and the following space
each contribute an underscore — not to the claimed
`GAMMA:part_of_regulates`. -/
theorem c6_counterexample :
    (get_edge_props partOfItem).relation = "GAMMA:part_of__regulates" ∧
    "GAMMA:part_of__regulates" ≠ "GAMMA:part_of_regulates" :=
  ⟨rfl, by decide⟩

/-- C6 amended: commas, dashes and whitespace runs are each replaced by an
underscore (so `Part Of, Regulates` yields `GAMMA:part_of__regulates`, with
one underscore for the comma and one for the space after it), the result is
lower-cased and tagged `GAMMA:`; an absent predicate defaults to
`GAMMA:interacts_with`. -/
theorem c6_relation_normalization :
    (get_edge_props partOfItem).relation = "GAMMA:part_of__regulates" ∧
    ∀ it : ActivityItem, it.pred = none → (get_edge_props it).relation = "GAMMA:interacts_with" :=
  ⟨rfl, fun it h => by simp [get_edge_props, h]⟩

/-- C6 witness: the concrete record without a predicate resolves to the
default relation. -/
theorem c6_relation_normalization_witness :
    (get_edge_props noPredItem).relation = "GAMMA:interacts_with" :=
  c6_relation_normalization.2 noPredItem rfl

/-- C7: name sanitization preserves the length of every input string and
leaves no character with code point ≥ 128 in the output. -/
theorem c7_sanitize_ascii (s : String) :
    (sanitize_name s).length = s.length ∧ ∀ c ∈ (sanitize_name s).data, c.toNat < 128 := by
  constructor
  · have hm : (sanitize_name s).length =
        (s.data.map (fun c => if c.toNat < 128 then c else '?')).length := rfl
    rw [hm, List.length_map]
    rfl
  · intro c hc
    simp only [sanitize_name] at hc
    obtain ⟨a, -, ha⟩ := List.mem_map.mp hc
    by_cases h : a.toNat < 128
    · rw [if_pos h] at ha; rwa [ha] at h
    · rw [if_neg h] at ha; rw [← ha]; decide

/-- C7 witness: sanitizing a one-character non-ASCII string keeps its
length and yields the 7-bit `?`. -/
theorem c7_sanitize_ascii_witness :
    (sanitize_name "é").length = ("é" : String).length ∧ ('?').toNat < 128 :=
  ⟨(c7_sanitize_ascii "é").1, (c7_sanitize_ascii "é").2 '?' (by decide)⟩

/-- A drug-activity parse containing a record with an unknown source tag
never returns successfully. -/
theorem parse_drug_bad_tag_no_ok :
    ∀ (items : List ActivityItem) (nl : List FlatRow) (ns : List String),
      (∃ i ∈ items, prefixmap i.id_src = none) →
      ∀ out, parse_gene_to_drug_activity items nl ns = .ok out → False := by
  intro items
  induction items with
  | nil => intro nl ns h out hok; obtain ⟨i, hi, -⟩ := h; cases hi
  | cons head tail ih =>
    intro nl ns h out hok
    obtain ⟨i, hi, hbad⟩ := h
    unfold parse_gene_to_drug_activity at hok
    split at hok
    · cases hok
    · next pre hpm =>
      rcases List.mem_cons.mp hi with rfl | hit
      · rw [hbad] at hpm; cases hpm
      · dsimp only at hok
        split at hok
        · cases hok
        · next out2 hrec => exact ih _ _ ⟨i, hit, hbad⟩ _ hrec

/-- A compound-activity parse containing a record with an unknown source
tag never returns successfully. -/
theorem parse_cmpd_bad_tag_no_ok :
    ∀ (items : List ActivityItem) (nl : List FlatRow) (ns : List String),
      (∃ i ∈ items, prefixmap i.id_src = none) →
      ∀ out, parse_gene_to_cmpd_activity items nl ns = .ok out → False := by
  intro items
  induction items with
  | nil => intro nl ns h out hok; obtain ⟨i, hi, -⟩ := h; cases hi
  | cons head tail ih =>
    intro nl ns h out hok
    obtain ⟨i, hi, hbad⟩ := h
    unfold parse_gene_to_cmpd_activity at hok
    split at hok
    · cases hok
    · next pre hpm =>
      rcases List.mem_cons.mp hi with rfl | hit
      · rw [hbad] at hpm; cases hpm
      · dsimp only at hok
        split at hok
        · cases hok
        · next out2 hrec => exact ih _ _ ⟨i, hit, hbad⟩ _ hrec

/-- C8: a query record whose compound/drug source tag is outside the fixed
`prefixmap` table makes the drug-activity parser (respectively the
compound-activity parser) raise, and through `parse_data` the error
propagates and aborts the run, so no output collections are produced. -/
theorem c8_unknown_source_tag_aborts :
    (∀ (items : List ActivityItem) (nl : List FlatRow) (ns : List String),
      (∃ i ∈ items, prefixmap i.id_src = none) →
      exceptIsError (parse_gene_to_drug_activity items nl ns) = true) ∧
    (∀ (items : List ActivityItem) (nl : List FlatRow) (ns : List String),
      (∃ i ∈ items, prefixmap i.id_src = none) →
      exceptIsError (parse_gene_to_cmpd_activity items nl ns) = true) ∧
    (∀ (g2d : List DiseaseItem) (gdrug gcmpd : List ActivityItem) (ns : List String),
      (∃ i ∈ gdrug, prefixmap i.id_src = none) →
      exceptIsError (parse_data g2d gdrug gcmpd ns) = true) := by
  refine ⟨?_, ?_, ?_⟩
  · intro items nl ns h
    cases hres : parse_gene_to_drug_activity items nl ns with
    | error e => simp [exceptIsError]
    | ok out => exact (parse_drug_bad_tag_no_ok items nl ns h out hres).elim
  · intro items nl ns h
    cases hres : parse_gene_to_cmpd_activity items nl ns with
    | error e => simp [exceptIsError]
    | ok out => exact (parse_cmpd_bad_tag_no_ok items nl ns h out hres).elim
  · intro g2d gdrug gcmpd ns h
    cases hres : parse_data g2d gdrug gcmpd ns with
    | error e => simp [exceptIsError]
    | ok r =>
      exfalso
      unfold parse_data at hres
      dsimp only at hres
      split at hres
      · cases hres
      · next r2 hok => exact parse_drug_bad_tag_no_ok gdrug _ _ h r2 hok

/-- C8 witness: a single record tagged `DrugCentral` aborts the
drug-activity parse. -/
theorem c8_unknown_source_tag_aborts_witness :
    exceptIsError (parse_gene_to_drug_activity [badTagItem] [] []) = true :=
  c8_unknown_source_tag_aborts.1 [badTagItem] [] [] ⟨badTagItem, List.mem_singleton.mpr rfl, rfl⟩

/-- C9: a gene-to-disease record whose normalized disease id equals its
gene id contributes no rows, adds one error-level log entry, and parsing
continues with the remaining records (the function is total: the run does
not abort). -/
theorem c9_same_endpoint_nonfatal (item : DiseaseItem) (rest : List DiseaseItem)
    (nl : List FlatRow) (ns : List String) (d : String)
    (hd : item.did = some d) (hsim : normalize_did d = item.value) :
    parse_gene_to_disease (item :: rest) nl ns =
      ⟨(parse_gene_to_disease rest nl ns.tail).node_list,
       (parse_gene_to_disease rest nl ns.tail).records + 1,
       (parse_gene_to_disease rest nl ns.tail).skipped,
       ⟨"error", "similar parse_gene_to_disease()! " ++ item.value ++ " == " ++ item.value⟩ ::
         (parse_gene_to_disease rest nl ns.tail).logs,
       (parse_gene_to_disease rest nl ns.tail).nonces⟩ := by
  simp only [parse_gene_to_disease, hd, hsim]
  simp

/-- C9 witness: the concrete record with disease id `HGNC:5` and gene id
`HGNC:5` yields no rows and one error log. -/
theorem c9_same_endpoint_nonfatal_witness :
    parse_gene_to_disease [simItem] [] [] =
      ⟨[], 1, 0, [⟨"error", "similar parse_gene_to_disease()! HGNC:5 == HGNC:5"⟩], []⟩ := by
  rw [c9_same_endpoint_nonfatal simItem [] [] [] "HGNC:5" rfl (by decide)]
  rfl

/-- C10: the affinity-properties dict built by `get_edge_props` always
holds exactly the keys `affinity` and `affinity_parameter` (defaulting to
`0` and the empty label when the raw affinity is absent), so the
`len(props) == 2` guard in the activity parsers always takes its then
branch. -/
theorem c10_affinity_props_shape (item : ActivityItem) :
    ((get_edge_props item).props).map Prod.fst = ["affinity", "affinity_parameter"] ∧
    ((get_edge_props item).props).length = 2 ∧
    (item.affinity = none →
      (get_edge_props item).props =
        [("affinity", PropVal.num 0), ("affinity_parameter", PropVal.label (some ""))]) := by
  refine ⟨?_, ?_, ?_⟩
  · cases h : item.affinity <;> simp [get_edge_props, h]
  · cases h : item.affinity <;> simp [get_edge_props, h]
  · intro h; simp [get_edge_props, h]

/-- C10 witness: the concrete record without a raw affinity gets the
two-key default dict. -/
theorem c10_affinity_props_shape_witness :
    (get_edge_props noPredItem).props =
      [("affinity", PropVal.num 0), ("affinity_parameter", PropVal.label (some ""))] :=
  (c10_affinity_props_shape noPredItem).2.2 rfl

